import Mathlib

/-!
# Verification of the Jodi contextual matching engine and signal merger

Shallow embedding of `matchmaker/jodi/matching.py` (class `ContextualMatcher`)
and of the confidence-based signal merge loop inside
`upsert_user_signals` in `matchmaker/jodi/db_postgres_v2.py`, together with
`_filter_by_confidence` from `matchmaker/jodi/conversation_v2.py`.

Python floats are modelled as rationals (`ℚ`); Python dicts with optional
keys are modelled as structures of `Option` fields, where `d.get(k, default)`
becomes `Option.getD`.  Python's `round(x, 2)` is modelled by
round-half-to-even at two decimal places, which agrees with Python on
decimal-exact values.  Breakdown dicts (insertion-ordered) are modelled as
association lists in insertion order.
-/

namespace Jodi

/-- Python substring test `needle in hay`, on character lists:
does `hay` start with `needle`? -/
def chars_start_with : List Char → List Char → Bool
  | _, [] => true
  | [], _ :: _ => false
  | a :: as, b :: bs => a == b && chars_start_with as bs

/-- Python substring test `needle in hay` on character lists. -/
def chars_contain (hay needle : List Char) : Bool :=
  match hay with
  | [] => needle.isEmpty
  | _ :: rest => chars_start_with hay needle || chars_contain rest needle

/-- Python `s.lower()`: lowercase each character.  Extensionally equal to
`String.toLower` (which maps `Char.toLower` over the characters) but defined
directly on the character list so that it evaluates by kernel reduction. -/
def str_lower (s : String) : String := ⟨s.data.map Char.toLower⟩

/-- Python `needle in hay` for strings (substring containment). -/
def str_contains (hay needle : String) : Bool :=
  chars_contain hay.toList needle.toList

/-- `demographics` dict of a profile: each key optional, as in the source's
`demo.get(...)` accesses. -/
structure Demographics where
  location : Option String := none
  age : Option Int := none
  caste : Option String := none
  language : Option String := none
  vegetarian : Option Bool := none
  occupation : Option String := none
deriving DecidableEq, Repr

/-- `preferences` dict of a profile.  Nested dicts such as
`{'location_proximity': {'weight': w}}` are flattened to the single value the
source reads, with `none` meaning the chain of `.get` calls falls back to the
default. -/
structure Preferences where
  location_proximity_weight : Option ℚ := none
  cultural_weight : Option String := none
  same_caste_weight : Option ℚ := none
  language_weight : Option ℚ := none
  vegetarian_weight : Option ℚ := none
  age_range_flexible : Option Bool := none
deriving DecidableEq, Repr

/-- A profile record as consumed by `ContextualMatcher`. -/
structure Profile where
  telegram_id : Option Int := none
  demographics : Demographics := {}
  preferences : Preferences := {}
  signals : List String := []
deriving DecidableEq, Repr

/-- Round half to even to an integer; models Python `round` on
decimal-exact rationals. -/
def round_half_even (q : ℚ) : ℤ :=
  let f := ⌊q⌋
  let r := q - (f : ℚ)
  if r < 1/2 then f
  else if 1/2 < r then f + 1
  else if f % 2 = 0 then f else f + 1

/-- Python `round(x, 2)`. -/
def round2 (q : ℚ) : ℚ := (round_half_even (q * 100) : ℚ) / 100

/-- `_same_metro_area`'s fixed metro clusters (the dict values; the source
only iterates over the values). -/
def metro_areas : List (List String) :=
  [["sydney", "parramatta", "bondi", "manly"],
   ["melbourne", "carlton", "richmond", "st kilda"],
   ["brisbane", "gold coast", "sunshine coast"],
   ["delhi", "new delhi", "gurgaon", "noida", "ghaziabad"],
   ["mumbai", "navi mumbai", "thane"]]

/-- `ContextualMatcher._same_metro_area` (inputs already lowercased by the
caller). -/
def same_metro_area (loc_a loc_b : String) : Bool :=
  metro_areas.any fun suburbs =>
    (suburbs.any fun s => str_contains loc_a s) &&
    (suburbs.any fun s => str_contains loc_b s)

/-- `ContextualMatcher._same_country`'s fixed country-city lists. -/
def country_city_lists : List (List String) :=
  [["sydney", "melbourne", "brisbane", "canberra", "adelaide", "perth"],
   ["delhi", "mumbai", "bangalore", "ahmedabad", "pune", "hyderabad"],
   ["new york", "san francisco", "los angeles", "chicago", "boston"],
   ["london", "manchester", "birmingham", "edinburgh"]]

/-- `ContextualMatcher._same_country` (inputs already lowercased). -/
def same_country (loc_a loc_b : String) : Bool :=
  country_city_lists.any fun cities =>
    (cities.any fun c => str_contains loc_a c) &&
    (cities.any fun c => str_contains loc_b c)

/-- `ContextualMatcher._similar_occupation`'s fixed occupation groups. -/
def occupation_groups : List (List String) :=
  [["engineer", "developer", "software", "tech", "programmer"],
   ["doctor", "physician", "surgeon", "medical"],
   ["consultant", "analyst", "manager"],
   ["teacher", "professor", "educator"],
   ["accountant", "finance", "banking"]]

/-- `ContextualMatcher._similar_occupation`. -/
def similar_occupation (occ_a occ_b : String) : Bool :=
  let oa := str_lower occ_a
  let ob := str_lower occ_b
  occupation_groups.any fun group =>
    (group.any fun w => str_contains oa w) &&
    (group.any fun w => str_contains ob w)

/-- Sub-score plus its contribution to the breakdown dict, in insertion
order. -/
abbrev SubScore := ℚ × List (String × ℚ)

/-- `ContextualMatcher._score_location`. -/
def score_location (demo_a demo_b : Demographics) (pref_a pref_b : Preferences) :
    SubScore :=
  let loc_a := str_lower (demo_a.location.getD "")
  let loc_b := str_lower (demo_b.location.getD "")
  if loc_a = loc_b then
    (30, [("same_city", (30 : ℚ))])
  else if same_metro_area loc_a loc_b then
    (20, [("same_metro", (20 : ℚ))])
  else
    let location_flex_a := pref_a.location_proximity_weight.getD (1/2)
    let location_flex_b := pref_b.location_proximity_weight.getD (1/2)
    let flex : SubScore :=
      if location_flex_a < 3/5 ∧ location_flex_b < 3/5 then
        (15, [("both_flexible", (15 : ℚ))])
      else if location_flex_a < 3/5 ∨ location_flex_b < 3/5 then
        (10, [("one_flexible", (10 : ℚ))])
      else (0, [])
    let country : SubScore :=
      if same_country loc_a loc_b then (5, [("same_country", (5 : ℚ))])
      else (-10, [("different_country", (-10 : ℚ))])
    let comp : SubScore :=
      if pref_a.cultural_weight.getD "medium" = "HIGH" ∨
         pref_b.cultural_weight.getD "medium" = "HIGH" then
        let caste_a := demo_a.caste.getD ""
        let caste_b := demo_b.caste.getD ""
        let lang_a := demo_a.language.getD ""
        let lang_b := demo_b.language.getD ""
        let cultural_bonus : ℚ :=
          (if caste_a ≠ "" ∧ caste_a = caste_b then 10 else 0) +
          (if lang_a ≠ "" ∧ lang_a = lang_b then 10 else 0)
        if 0 < cultural_bonus then
          (cultural_bonus, [("cultural_compensation", cultural_bonus)])
        else (0, [])
      else (0, [])
    (flex.1 + country.1 + comp.1, flex.2 ++ country.2 ++ comp.2)

/-- `ContextualMatcher._score_cultural`. -/
def score_cultural (demo_a demo_b : Demographics) (pref_a pref_b : Preferences) :
    SubScore :=
  let caste_a := demo_a.caste.getD ""
  let caste_b := demo_b.caste.getD ""
  let caste_weight_a := pref_a.same_caste_weight.getD (1/2)
  let caste_weight_b := pref_b.same_caste_weight.getD (1/2)
  let caste : SubScore :=
    if caste_a ≠ "" ∧ caste_b ≠ "" then
      if caste_a = caste_b then
        let caste_score := 15 * max caste_weight_a caste_weight_b
        (caste_score, [("same_caste", round2 caste_score)])
      else if 7/10 < caste_weight_a ∨ 7/10 < caste_weight_b then
        let penalty := -10 * max caste_weight_a caste_weight_b
        (penalty, [("different_caste_penalty", round2 penalty)])
      else (0, [])
    else (0, [])
  let lang_a := demo_a.language.getD ""
  let lang_b := demo_b.language.getD ""
  let lang_weight_a := pref_a.language_weight.getD (1/2)
  let lang_weight_b := pref_b.language_weight.getD (1/2)
  let lang : SubScore :=
    if lang_a ≠ "" ∧ lang_b ≠ "" ∧ lang_a = lang_b then
      let lang_score := 10 * max lang_weight_a lang_weight_b
      (lang_score, [("same_language", round2 lang_score)])
    else (0, [])
  (caste.1 + lang.1, caste.2 ++ lang.2)

/-- Python truthiness of `demo.get('age')`: both `None` and `0` are falsy. -/
def age_truthy : Option Int → Bool
  | none => false
  | some n => n != 0

/-- `ContextualMatcher._score_age`. -/
def score_age (demo_a demo_b : Demographics) (pref_a pref_b : Preferences) :
    SubScore :=
  if age_truthy demo_a.age ∧ age_truthy demo_b.age then
    let age_diff := (demo_a.age.getD 0 - demo_b.age.getD 0).natAbs
    if age_diff ≤ 2 then (10, [("age_diff", (10 : ℚ))])
    else if age_diff ≤ 5 then (7, [("age_diff", (7 : ℚ))])
    else if age_diff ≤ 8 then (3, [("age_diff", (3 : ℚ))])
    else
      let age_flex_a := pref_a.age_range_flexible.getD false
      let age_flex_b := pref_b.age_range_flexible.getD false
      if age_flex_a && age_flex_b then (1, [("age_diff_flexible", (1 : ℚ))])
      else (-5, [("age_diff_penalty", (-5 : ℚ))])
  else (0, [])

/-- `ContextualMatcher._score_lifestyle`. -/
def score_lifestyle (demo_a demo_b : Demographics) (pref_a pref_b : Preferences) :
    SubScore :=
  let veg_a := demo_a.vegetarian.getD false
  let veg_b := demo_b.vegetarian.getD false
  let veg_weight_a := pref_a.vegetarian_weight.getD (1/2)
  let veg_weight_b := pref_b.vegetarian_weight.getD (1/2)
  let veg : SubScore :=
    if veg_a = veg_b then
      let veg_score := 10 * max veg_weight_a veg_weight_b
      (veg_score, [("vegetarian_match", round2 veg_score)])
    else if 4/5 < veg_weight_a ∨ 4/5 < veg_weight_b then
      let penalty := -15 * max veg_weight_a veg_weight_b
      (penalty, [("vegetarian_mismatch", round2 penalty)])
    else (0, [])
  let occ_a := demo_a.occupation.getD ""
  let occ_b := demo_b.occupation.getD ""
  let occ : SubScore :=
    if occ_a ≠ "" ∧ occ_b ≠ "" ∧ similar_occupation occ_a occ_b then
      (5, [("similar_occupation", (5 : ℚ))])
    else (0, [])
  (veg.1 + occ.1, veg.2 ++ occ.2)

/-- `ContextualMatcher._score_signals` (the `pref` arguments are unused in
the source as well). -/
def score_signals (signals_a signals_b : List String)
    (_pref_a _pref_b : Preferences) : SubScore :=
  let keywords_a := signals_a.map str_lower
  let keywords_b := signals_b.map str_lower
  let diaspora : SubScore :=
    if (keywords_a.any fun s => str_contains s "diaspora") &&
       (keywords_b.any fun s => str_contains s "diaspora") then
      (10, [("shared_diaspora_experience", (10 : ℚ))])
    else (0, [])
  let family : SubScore :=
    if (keywords_a.any fun s => str_contains s "family") &&
       (keywords_b.any fun s => str_contains s "family") then
      (5, [("family_oriented", (5 : ℚ))])
    else (0, [])
  let intellectual : SubScore :=
    if (keywords_a.any fun s => str_contains s "intellectual" || str_contains s "curious") &&
       (keywords_b.any fun s => str_contains s "intellectual" || str_contains s "curious") then
      (5, [("intellectual_match", (5 : ℚ))])
    else (0, [])
  (diaspora.1 + family.1 + intellectual.1, diaspora.2 ++ family.2 ++ intellectual.2)

/-- The breakdown dict returned by `calculate_match_score`: one sub-dict per
category, plus the rounded `total` entry appended last. -/
structure Breakdown where
  location : List (String × ℚ)
  cultural : List (String × ℚ)
  age : List (String × ℚ)
  lifestyle : List (String × ℚ)
  signals : List (String × ℚ)
  total : ℚ
deriving DecidableEq, Repr

/-- `ContextualMatcher.calculate_match_score`. -/
def calculate_match_score (profile_a profile_b : Profile) : ℚ × Breakdown :=
  let demo_a := profile_a.demographics
  let demo_b := profile_b.demographics
  let pref_a := profile_a.preferences
  let pref_b := profile_b.preferences
  let location := score_location demo_a demo_b pref_a pref_b
  let cultural := score_cultural demo_a demo_b pref_a pref_b
  let age := score_age demo_a demo_b pref_a pref_b
  let lifestyle := score_lifestyle demo_a demo_b pref_a pref_b
  let sig := score_signals profile_a.signals profile_b.signals pref_a pref_b
  let score := location.1 + cultural.1 + age.1 + lifestyle.1 + sig.1
  (score, ⟨location.2, cultural.2, age.2, lifestyle.2, sig.2, round2 score⟩)

/-- Descending-score order used by `find_matches`'s
`matches.sort(key=lambda x: x[1], reverse=True)`. -/
def score_ge (x y : Profile × ℚ × Breakdown) : Prop := y.2.1 ≤ x.2.1

instance : DecidableRel score_ge := fun x y =>
  inferInstanceAs (Decidable (y.2.1 ≤ x.2.1))

instance : IsTotal (Profile × ℚ × Breakdown) score_ge :=
  ⟨fun x y => le_total y.2.1 x.2.1⟩

instance : IsTrans (Profile × ℚ × Breakdown) score_ge :=
  ⟨fun _ _ _ h h' => le_trans h' h⟩

/-- `ContextualMatcher.find_matches`.  Python's `list.sort` is a stable sort;
`List.insertionSort` with the total preorder `score_ge` is extensionally the
same function (stable sorts agree). -/
def find_matches (user_profile : Profile) (all_profiles : List Profile)
    (min_score : ℚ := 40) (limit : Nat := 5) : List (Profile × ℚ × Breakdown) :=
  let match_list := all_profiles.filterMap fun candidate =>
    if candidate.telegram_id = user_profile.telegram_id then none
    else if min_score ≤ (calculate_match_score user_profile candidate).1 then
      some (candidate, (calculate_match_score user_profile candidate).1,
        (calculate_match_score user_profile candidate).2)
    else none
  (List.insertionSort score_ge match_list).take limit

/-! ## Signal confidence merger

The per-field merge loop of `upsert_user_signals`
(`db_postgres_v2.py`): the surrounding SQL read/write is I/O glue; the loop
itself is pure over the two dicts, and is modelled here over association
lists in Python-dict insertion order. -/

/-- One signal dict entry; `confidence`/`value` may be missing, in which case
the source's `signal_data.get('confidence', 0.0)` falls back to `0.0`. -/
structure SignalData where
  confidence : Option ℚ := none
  value : Option String := none
deriving DecidableEq, Repr

/-- A signals dict (`field → signal_data`), in insertion order. -/
abbrev SignalMap := List (String × SignalData)

/-- Python `field in d` / `d[field]` on the modelled dict: first binding of
the field. -/
def lookup_field (m : SignalMap) (k : String) : Option SignalData :=
  match m with
  | [] => none
  | (k', v) :: rest => if k' = k then some v else lookup_field rest k

/-- Python `d[field] = v`: overwrite in place if the field exists (keeping
dict order), else append at the end. -/
def set_field (m : SignalMap) (k : String) (v : SignalData) : SignalMap :=
  if m.any fun p => p.1 = k then
    m.map fun p => if p.1 = k then (k, v) else p
  else
    m ++ [(k, v)]

/-- One iteration of the merge loop of `upsert_user_signals` on field
`fv.1` with incoming entry `fv.2`: `new_confidence = signal_data.get('confidence', 0.0)`;
update only if the field exists with strictly lower confidence, insert
unconditionally if new. -/
def merge_step (cur : SignalMap) (fv : String × SignalData) : SignalMap :=
  let new_confidence := fv.2.confidence.getD 0
  match lookup_field cur fv.1 with
  | some existing =>
      if existing.confidence.getD 0 < new_confidence then set_field cur fv.1 fv.2
      else cur
  | none => set_field cur fv.1 fv.2

/-- The merge loop of `upsert_user_signals`: fold the incoming batch over
the current signals, keeping the higher-confidence entry per field. -/
def merge_signals (current_signals incoming : SignalMap) : SignalMap :=
  incoming.foldl merge_step current_signals

/-- `_filter_by_confidence` (`conversation_v2.py`) restricted to one
category dict: keep the fields whose `confidence` (default 0) reaches the
threshold.  The source's `store_minimum` threshold is 0.70. -/
def filter_by_confidence (threshold : ℚ) (m : SignalMap) : SignalMap :=
  m.filter fun p => threshold ≤ p.2.confidence.getD 0

/-- `CONFIDENCE_THRESHOLDS['store_minimum']` in `conversation_v2.py`. -/
def store_minimum : ℚ := 7/10

/-! ## General lemmas -/

theorem str_lower_empty : str_lower "" = "" := rfl

/-! ## C9: same-city short-circuit -/

/-- C9: whenever the two lowercased location strings are identical, the
location sub-score is exactly 30 with breakdown `{'same_city': 30}`, and no
other location adjustment is applied, regardless of any preference weights:
both `_score_location` and the location entry of the full breakdown are
exactly `same_city = 30`. -/
theorem same_city_short_circuit (pa pb : Profile)
    (h : str_lower (pa.demographics.location.getD "") =
         str_lower (pb.demographics.location.getD "")) :
    score_location pa.demographics pb.demographics pa.preferences pb.preferences =
        (30, [("same_city", 30)]) ∧
    (calculate_match_score pa pb).2.location = [("same_city", 30)] := by
  constructor
  · simp only [score_location, if_pos h]
  · simp only [calculate_match_score, score_location, if_pos h]

/-- C9 witness: two profiles in the same city (up to case) hit the
short-circuit. -/
theorem same_city_short_circuit_witness :
    score_location { location := some "Sydney, Australia" }
        { location := some "sydney, australia" } {} { location_proximity_weight := some 1 } =
      (30, [("same_city", 30)]) ∧
    (calculate_match_score
        { demographics := { location := some "Sydney, Australia" } }
        { demographics := { location := some "sydney, australia" },
          preferences := { location_proximity_weight := some 1 } }).2.location =
      [("same_city", 30)] :=
  same_city_short_circuit
    { demographics := { location := some "Sydney, Australia" } }
    { demographics := { location := some "sydney, australia" },
      preferences := { location_proximity_weight := some 1 } }
    (by decide)

/-! ## C2: scoring two fully sparse profiles

The claim that two profiles with no demographics and no signals score
`total == 0.0` is false on the code: both empty location strings compare
equal, giving the `same_city` bonus of 30, and the missing `vegetarian`
flags both default to `False`, which compare equal and give
`10 * max(weight, weight)` (5.0 with default weights). -/

/-- C2 counterexample: two completely empty profiles score 35.0, not 0.0,
and the breakdown is not all-zero (`same_city = 30`). -/
theorem sparse_profiles_score_counterexample :
    (calculate_match_score {} {}).1 = 35 ∧
    (calculate_match_score {} {}).1 ≠ 0 ∧
    (calculate_match_score {} {}).2.location = [("same_city", 30)] ∧
    (calculate_match_score {} {}).2.lifestyle = [("vegetarian_match", 5)] := by
  refine ⟨?_, ?_, ?_, ?_⟩ <;>
    norm_num [calculate_match_score, score_location, score_cultural, score_age,
      score_lifestyle, score_signals, age_truthy, str_lower_empty, round2,
      round_half_even]

/-- C2 amended: scoring two profiles with no demographic fields populated
and no signals never fails (the function is total) and returns
`total = 30 + 10 * max(veg_weight_a, veg_weight_b)` — 35.0 with default
weights — with breakdown `{location: {same_city: 30},
lifestyle: {vegetarian_match: round2(10*max)}}` and all other sub-breakdowns
empty. -/
theorem sparse_profiles_score (pa pb : Profile)
    (hda : pa.demographics = {}) (hdb : pb.demographics = {})
    (hsa : pa.signals = []) (hsb : pb.signals = []) :
    (calculate_match_score pa pb).1 =
        30 + 10 * max (pa.preferences.vegetarian_weight.getD (1/2))
          (pb.preferences.vegetarian_weight.getD (1/2)) ∧
    (calculate_match_score pa pb).2.location = [("same_city", 30)] ∧
    (calculate_match_score pa pb).2.cultural = [] ∧
    (calculate_match_score pa pb).2.age = [] ∧
    (calculate_match_score pa pb).2.lifestyle =
        [("vegetarian_match", round2 (10 * max (pa.preferences.vegetarian_weight.getD (1/2))
          (pb.preferences.vegetarian_weight.getD (1/2))))] ∧
    (calculate_match_score pa pb).2.signals = [] := by
  simp only [calculate_match_score, score_location, score_cultural, score_age,
    score_lifestyle, score_signals, hda, hdb, hsa, hsb, age_truthy]
  norm_num [str_lower_empty]

/-- C2 amended witness: the two empty profiles instantiate the amended
statement. -/
theorem sparse_profiles_score_witness :
    (calculate_match_score {} {}).1 =
        30 + 10 * max ((Option.none (α := ℚ)).getD (1/2)) ((Option.none (α := ℚ)).getD (1/2)) ∧
    (calculate_match_score {} {}).2.location = [("same_city", 30)] ∧
    (calculate_match_score {} {}).2.cultural = [] ∧
    (calculate_match_score {} {}).2.age = [] ∧
    (calculate_match_score {} {}).2.lifestyle =
        [("vegetarian_match", round2 (10 * max ((Option.none (α := ℚ)).getD (1/2))
          ((Option.none (α := ℚ)).getD (1/2))))] ∧
    (calculate_match_score {} {}).2.signals = [] :=
  sparse_profiles_score {} {} rfl rfl rfl rfl

/-! ## C10: missing vegetarian fields still produce the dietary bonus -/

/-- C10: when neither profile has a `vegetarian` demographic field, both
sides default to `False`, which compare equal, so the lifestyle breakdown
still starts with `vegetarian_match = round2(10 * max(veg weights))`, which
is exactly 5.0 when both diet weights are also left to their 0.5 default. -/
theorem default_vegetarian_match (pa pb : Profile)
    (ha : pa.demographics.vegetarian = none) (hb : pb.demographics.vegetarian = none) :
    ((calculate_match_score pa pb).2.lifestyle).head? =
      some ("vegetarian_match",
        round2 (10 * max (pa.preferences.vegetarian_weight.getD (1/2))
          (pb.preferences.vegetarian_weight.getD (1/2)))) ∧
    (pa.preferences.vegetarian_weight = none → pb.preferences.vegetarian_weight = none →
      ((calculate_match_score pa pb).2.lifestyle).head? = some ("vegetarian_match", 5)) := by
  have key : ((calculate_match_score pa pb).2.lifestyle).head? =
      some ("vegetarian_match",
        round2 (10 * max (pa.preferences.vegetarian_weight.getD (1/2))
          (pb.preferences.vegetarian_weight.getD (1/2)))) := by
    simp [calculate_match_score, score_lifestyle, ha, hb]
  refine ⟨key, fun h1 h2 => ?_⟩
  rw [key, h1, h2]
  norm_num [round2, round_half_even]

/-- C10 witness: two profiles that never mention diet at all still get the
5.0 `vegetarian_match` bonus. -/
theorem default_vegetarian_match_witness :
    ((calculate_match_score {} {}).2.lifestyle).head? =
      some ("vegetarian_match",
        round2 (10 * max ((Option.none (α := ℚ)).getD (1/2))
          ((Option.none (α := ℚ)).getD (1/2)))) ∧
    ((calculate_match_score {} {}).2.lifestyle).head? = some ("vegetarian_match", 5) := by
  have h := default_vegetarian_match {} {} rfl rfl
  exact ⟨h.1, h.2 rfl rfl⟩

/-! ## C6: weights outside [0,1] are NOT clamped

The spec's error-handling design says out-of-range weights are clamped to
the nearest bound; the code has no clamping anywhere — raw weights scale
sub-scores linearly. -/

/-- C6 counterexample: equal non-empty castes with `same_caste` weight 5.0
on both sides contribute `15 * 5 = 75`, not the claimed `15 * 1 = 15`. -/
theorem unclamped_weight_counterexample :
    score_cultural { caste := some "Patel" } { caste := some "Patel" }
        { same_caste_weight := some 5 } { same_caste_weight := some 5 } =
      (75, [("same_caste", 75)]) ∧ ¬((75 : ℚ) = 15) := by
  constructor
  · have h1 : ¬("Patel" = "") := by decide
    simp only [score_cultural, Option.getD_some, Option.getD_none, h1]
    norm_num [round2, round_half_even, max_self, Prod.ext_iff]
    exact h1
  · norm_num

/-- C6 amended: a preference weight outside [0,1] is used as-is (no clamping
and no failure): with equal non-empty castes the caste sub-score is always
`15 * max(weight_a, weight_b)` for arbitrary rational weights, e.g. 75 when
both weights are 5.0. -/
theorem unclamped_weight (dA dB : Demographics) (pA pB : Preferences) (c : String)
    (hA : dA.caste = some c) (hB : dB.caste = some c) (hc : c ≠ "")
    (hlA : dA.language = none) (hlB : dB.language = none) :
    (score_cultural dA dB pA pB).1 =
      15 * max (pA.same_caste_weight.getD (1/2)) (pB.same_caste_weight.getD (1/2)) ∧
    (score_cultural dA dB pA pB).2 =
      [("same_caste", round2 (15 * max (pA.same_caste_weight.getD (1/2))
        (pB.same_caste_weight.getD (1/2))))] := by
  simp only [score_cultural, hA, hB, hlA, hlB, Option.getD_some, Option.getD_none]
  simp [hc]

/-- C6 amended witness: weight 5.0 on both sides gives caste sub-score
`15 * max 5 5`. -/
theorem unclamped_weight_witness :
    (score_cultural { caste := some "Patel" } { caste := some "Patel" }
        { same_caste_weight := some 5 } { same_caste_weight := some 5 }).1 =
      15 * max ((Option.some (5:ℚ)).getD (1/2)) ((Option.some (5:ℚ)).getD (1/2)) ∧
    (score_cultural { caste := some "Patel" } { caste := some "Patel" }
        { same_caste_weight := some 5 } { same_caste_weight := some 5 }).2 =
      [("same_caste", round2 (15 * max ((Option.some (5:ℚ)).getD (1/2))
        ((Option.some (5:ℚ)).getD (1/2))))] :=
  unclamped_weight _ _ _ _ "Patel" rfl rfl (by decide) rfl rfl

/-! ## C7: the age sub-score table

Python's `if age_a and age_b` treats age `0` as missing (falsy), so "both
ages present" must be read as "present and non-zero". -/

/-- C7 counterexample: two profiles with age 0 (both ages present, age
difference 0 ≤ 2) get age sub-score 0 with an empty age breakdown, not the
+10 the claim requires for every pair with both ages present. -/
theorem age_zero_counterexample :
    score_age { age := some 0 } { age := some 0 } {} {} = (0, []) ∧
    ({ age := some 0 } : Demographics).age.isSome = true ∧
    ¬((score_age { age := some 0 } { age := some 0 } {} {}).1 = 10) := by
  refine ⟨?_, rfl, ?_⟩ <;> norm_num [score_age, age_truthy]

/-- C7 amended: with both ages present **and non-zero** (Python truthiness),
the age sub-score is +10 for difference ≤ 2, +7 for 3–5, +3 for 6–8, +1 for
difference > 8 with both `age_range` preferences flexible, −5 for
difference > 8 otherwise; with a missing or zero age on either side the
sub-score is 0 and absent from the breakdown. -/
theorem age_subscore (dA dB : Demographics) (pA pB : Preferences) (a b : Int)
    (hA : dA.age = some a) (hB : dB.age = some b) (ha : a ≠ 0) (hb : b ≠ 0) :
    ((a - b).natAbs ≤ 2 → score_age dA dB pA pB = (10, [("age_diff", 10)])) ∧
    (3 ≤ (a - b).natAbs → (a - b).natAbs ≤ 5 →
      score_age dA dB pA pB = (7, [("age_diff", 7)])) ∧
    (6 ≤ (a - b).natAbs → (a - b).natAbs ≤ 8 →
      score_age dA dB pA pB = (3, [("age_diff", 3)])) ∧
    (8 < (a - b).natAbs → pA.age_range_flexible.getD false = true →
      pB.age_range_flexible.getD false = true →
      score_age dA dB pA pB = (1, [("age_diff_flexible", 1)])) ∧
    (8 < (a - b).natAbs →
      ¬(pA.age_range_flexible.getD false = true ∧ pB.age_range_flexible.getD false = true) →
      score_age dA dB pA pB = (-5, [("age_diff_penalty", -5)])) ∧
    (∀ dA' dB' : Demographics,
      (dA'.age = none ∨ dA'.age = some 0 ∨ dB'.age = none ∨ dB'.age = some 0) →
      score_age dA' dB' pA pB = (0, [])) := by
  have hta : age_truthy (some a) = true := by simp [age_truthy, ha]
  have htb : age_truthy (some b) = true := by simp [age_truthy, hb]
  have missing : ∀ dA' dB' : Demographics,
      (dA'.age = none ∨ dA'.age = some 0 ∨ dB'.age = none ∨ dB'.age = some 0) →
      score_age dA' dB' pA pB = (0, []) := by
    intro dA' dB' h
    rcases h with h | h | h | h <;> simp [score_age, age_truthy, h]
  simp only [score_age, hA, hB, hta, htb, Option.getD_some, true_and, and_true, if_true]
  refine ⟨fun h => ?_, fun h3 h5 => ?_, fun h6 h8 => ?_, fun h8 hfa hfb => ?_,
    fun h8 hnf => ?_, missing⟩
  · rw [if_pos h]
  · rw [if_neg (by omega), if_pos h5]
  · rw [if_neg (by omega), if_neg (by omega), if_pos h8]
  · rw [if_neg (by omega), if_neg (by omega), if_neg (by omega), if_pos (by simp [hfa, hfb])]
  · rw [if_neg (by omega), if_neg (by omega), if_neg (by omega),
      if_neg (by simpa [Bool.and_eq_true] using hnf)]

/-- C7 amended witness: ages 30 and 33 (difference 3) score +7. -/
theorem age_subscore_witness :
    score_age { age := some 30 } { age := some 33 } {} {} = (7, [("age_diff", 7)]) :=
  ((age_subscore { age := some 30 } { age := some 33 } {} {} 30 33 rfl rfl
    (by decide) (by decide)).2.1) (by decide) (by decide)

/-! ## Association-list lemmas for the merge loop -/

theorem lookup_field_nil (k : String) : lookup_field [] k = none := rfl

theorem lookup_field_cons (pk : String) (pv : SignalData) (rest : SignalMap)
    (k : String) :
    lookup_field ((pk, pv) :: rest) k = if pk = k then some pv else lookup_field rest k := rfl

theorem lookup_field_overwrite (m : SignalMap) (k : String) (v : SignalData) :
    lookup_field (m.map fun p => if p.1 = k then (k, v) else p) k =
      (lookup_field m k).map fun _ => v := by
  induction m with
  | nil => rfl
  | cons p rest ih =>
    obtain ⟨pk, pv⟩ := p
    by_cases h : pk = k
    · subst h; simp [lookup_field_cons]
    · simp [lookup_field_cons, h, ih]

theorem lookup_field_overwrite_ne (m : SignalMap) (k k' : String) (v : SignalData)
    (h : k' ≠ k) :
    lookup_field (m.map fun p => if p.1 = k then (k, v) else p) k' =
      lookup_field m k' := by
  induction m with
  | nil => rfl
  | cons p rest ih =>
    obtain ⟨pk, pv⟩ := p
    by_cases hp : pk = k
    · subst hp; simp [lookup_field_cons, Ne.symm h, ih]
    · simp [lookup_field_cons, hp, ih]

theorem lookup_field_append (m m' : SignalMap) (k : String) :
    lookup_field (m ++ m') k =
      match lookup_field m k with
      | some w => some w
      | none => lookup_field m' k := by
  induction m with
  | nil => rfl
  | cons p rest ih =>
    obtain ⟨pk, pv⟩ := p
    by_cases h : pk = k
    · subst h; simp [lookup_field_cons]
    · simp [lookup_field_cons, h, ih]

theorem lookup_field_none_iff (m : SignalMap) (k : String) :
    lookup_field m k = none ↔ (m.any fun p => p.1 = k) = false := by
  induction m with
  | nil => simp [lookup_field_nil]
  | cons p rest ih =>
    obtain ⟨pk, pv⟩ := p
    by_cases h : pk = k <;> simp [lookup_field_cons, h, ih]

theorem lookup_field_set_field_same (m : SignalMap) (k : String) (v : SignalData) :
    lookup_field (set_field m k v) k = some v := by
  unfold set_field
  by_cases hany : (m.any fun p => p.1 = k) = true
  · rw [if_pos hany, lookup_field_overwrite]
    cases h : lookup_field m k with
    | none => rw [lookup_field_none_iff] at h; rw [h] at hany; cases hany
    | some w => rfl
  · rw [if_neg hany, lookup_field_append]
    have h : lookup_field m k = none := by
      rw [lookup_field_none_iff]; exact Bool.eq_false_iff.mpr hany
    rw [h]
    simp [lookup_field]

theorem lookup_field_set_field_ne (m : SignalMap) (k k' : String) (v : SignalData)
    (h : k' ≠ k) : lookup_field (set_field m k v) k' = lookup_field m k' := by
  unfold set_field
  by_cases hany : (m.any fun p => p.1 = k) = true
  · rw [if_pos hany, lookup_field_overwrite_ne _ _ _ _ h]
  · rw [if_neg hany, lookup_field_append]
    cases hk : lookup_field m k' with
    | none => simp [lookup_field, Ne.symm h]
    | some w => rfl

theorem lookup_field_merge_step_ne (cur : SignalMap) (x : String × SignalData)
    (k : String) (h : k ≠ x.1) :
    lookup_field (merge_step cur x) k = lookup_field cur k := by
  unfold merge_step
  cases hl : lookup_field cur x.1 with
  | none => simpa using lookup_field_set_field_ne cur x.1 k x.2 h
  | some e =>
    simp only
    split
    · exact lookup_field_set_field_ne cur x.1 k x.2 h
    · rfl

theorem lookup_field_merge_of_not_key (cur inc : SignalMap) (k : String)
    (h : ∀ p ∈ inc, p.1 ≠ k) :
    lookup_field (merge_signals cur inc) k = lookup_field cur k := by
  induction inc generalizing cur with
  | nil => rfl
  | cons x rest ih =>
    have hx : k ≠ x.1 := Ne.symm (h x (List.mem_cons_self x rest))
    have : merge_signals cur (x :: rest) = merge_signals (merge_step cur x) rest := rfl
    rw [this, ih (merge_step cur x) (fun p hp => h p (List.mem_cons_of_mem x hp)),
      lookup_field_merge_step_ne cur x k hx]

/-- Full characterization of the merge loop on a per-field basis (for an
incoming batch with distinct field names, as a Python dict guarantees). -/
theorem merge_signals_lookup (cur inc : SignalMap)
    (hinc : (inc.map Prod.fst).Nodup) (f : String) :
    lookup_field (merge_signals cur inc) f =
      match lookup_field inc f, lookup_field cur f with
      | none, r => r
      | some v, none => some v
      | some v, some e =>
          if e.confidence.getD 0 < v.confidence.getD 0 then some v else some e := by
  induction inc generalizing cur with
  | nil => simp [merge_signals, lookup_field]
  | cons x rest ih =>
    simp only [List.map_cons, List.nodup_cons] at hinc
    have hfold : merge_signals cur (x :: rest) = merge_signals (merge_step cur x) rest := rfl
    rw [hfold]
    by_cases hf : x.1 = f
    · subst hf
      have hnk : ∀ p ∈ rest, p.1 ≠ x.1 := by
        intro p hp heq
        exact hinc.1 (heq ▸ List.mem_map_of_mem Prod.fst hp)
      rw [lookup_field_merge_of_not_key _ _ _ hnk]
      have hhead : lookup_field (x :: rest) x.1 = some x.2 := by simp [lookup_field]
      rw [hhead]
      unfold merge_step
      cases hl : lookup_field cur x.1 with
      | none => simp [lookup_field_set_field_same]
      | some e =>
        simp only
        split
        · simp [lookup_field_set_field_same, hl, *]
        · simp [hl, *]
    · have hhead : lookup_field (x :: rest) f = lookup_field rest f := by
        simp [lookup_field, hf]
      rw [ih (merge_step cur x) hinc.2, hhead,
        lookup_field_merge_step_ne cur x f (Ne.symm hf)]

theorem mem_set_field (m : SignalMap) (k : String) (v : SignalData)
    (x : String × SignalData) (hx : x ∈ set_field m k v) : x ∈ m ∨ x = (k, v) := by
  unfold set_field at hx
  by_cases hany : (m.any fun p => p.1 = k) = true
  · rw [if_pos hany] at hx
    rcases List.mem_map.mp hx with ⟨p, hp, hpx⟩
    by_cases h : p.1 = k
    · rw [if_pos h] at hpx; exact Or.inr hpx.symm
    · rw [if_neg h] at hpx; exact Or.inl (hpx ▸ hp)
  · rw [if_neg hany] at hx
    rcases List.mem_append.mp hx with h | h
    · exact Or.inl h
    · exact Or.inr (List.mem_singleton.mp h)

theorem mem_merge_signals (cur inc : SignalMap) :
    ∀ x ∈ merge_signals cur inc, x ∈ cur ∨ x ∈ inc := by
  induction inc generalizing cur with
  | nil => exact fun x hx => Or.inl hx
  | cons y rest ih =>
    intro x hx
    have hfold : merge_signals cur (y :: rest) = merge_signals (merge_step cur y) rest := rfl
    rw [hfold] at hx
    rcases ih (merge_step cur y) x hx with h | h
    · unfold merge_step at h
      rcases hl : lookup_field cur y.1 with _ | e <;> rw [hl] at h
      · rcases mem_set_field _ _ _ _ h with h' | h'
        · exact Or.inl h'
        · exact Or.inr (h' ▸ List.mem_cons_self y rest)
      · simp only at h
        split at h
        · rcases mem_set_field _ _ _ _ h with h' | h'
          · exact Or.inl h'
          · exact Or.inr (h' ▸ List.mem_cons_self y rest)
        · exact Or.inl h
    · exact Or.inr (List.mem_cons_of_mem y h)

/-! ## C3: confidence-based upsert semantics of the merge -/

/-- C3: for every existing signal map and incoming batch (with distinct
incoming field names, as a Python dict guarantees), the merge inserts each
field present only in the incoming batch; for a field present in both it
keeps the existing entry unless the incoming confidence is strictly
greater; in particular equal confidence keeps the existing entry even when
the incoming value differs; and fields absent from the batch are left
unchanged. -/
theorem merge_confidence_upsert (cur inc : SignalMap)
    (hinc : (inc.map Prod.fst).Nodup) :
    (∀ f v, lookup_field inc f = some v → lookup_field cur f = none →
      lookup_field (merge_signals cur inc) f = some v) ∧
    (∀ f v e, lookup_field inc f = some v → lookup_field cur f = some e →
      lookup_field (merge_signals cur inc) f =
        if e.confidence.getD 0 < v.confidence.getD 0 then some v else some e) ∧
    (∀ f, lookup_field inc f = none →
      lookup_field (merge_signals cur inc) f = lookup_field cur f) ∧
    (∀ f v e, lookup_field inc f = some v → lookup_field cur f = some e →
      v.confidence.getD 0 = e.confidence.getD 0 →
      lookup_field (merge_signals cur inc) f = some e) := by
  refine ⟨fun f v hv hc => ?_, fun f v e hv hc => ?_, fun f hf => ?_,
    fun f v e hv hc heq => ?_⟩
  · rw [merge_signals_lookup cur inc hinc f, hv, hc]
  · rw [merge_signals_lookup cur inc hinc f, hv, hc]
  · rw [merge_signals_lookup cur inc hinc f, hf]
  · rw [merge_signals_lookup cur inc hinc f, hv, hc]
    simp only [heq, lt_irrefl, if_false]

/-- C3 witness: a restated fact at equal confidence (0.8) with a different
value does not overwrite, while a brand-new field is inserted. -/
theorem merge_confidence_upsert_witness :
    lookup_field (merge_signals [("diet", ⟨some (4/5), some "veg"⟩)]
        [("diet", ⟨some (4/5), some "nonveg"⟩), ("city", ⟨some (9/10), some "blr"⟩)])
        "diet" = some ⟨some (4/5), some "veg"⟩ ∧
    lookup_field (merge_signals [("diet", ⟨some (4/5), some "veg"⟩)]
        [("diet", ⟨some (4/5), some "nonveg"⟩), ("city", ⟨some (9/10), some "blr"⟩)])
        "city" = some ⟨some (9/10), some "blr"⟩ := by
  constructor
  · exact (merge_confidence_upsert _ _ (by decide)).2.2.2 "diet"
      ⟨some (4/5), some "nonveg"⟩ ⟨some (4/5), some "veg"⟩ rfl rfl rfl
  · exact (merge_confidence_upsert _ _ (by decide)).1 "city"
      ⟨some (9/10), some "blr"⟩ rfl rfl

/-! ## C4: the merge does NOT itself defend the 0.70 threshold

`upsert_user_signals` performs no confidence-threshold check: a sub-0.70
incoming entry lands in the merged map whenever its field is new (or beats
the stored confidence).  The 0.70 invariant holds only because the caller
pre-filters batches with `_filter_by_confidence`. -/

/-- C4 counterexample: an incoming entry with confidence 0.5 < 0.70 on a new
field is inserted by the merge, so the merged result contains a field below
the acceptance threshold even though the existing map (empty) satisfied the
invariant. -/
theorem merge_no_threshold_defense :
    lookup_field (merge_signals [] [("diet", ⟨some (1/2), some "veg"⟩)]) "diet" =
      some ⟨some (1/2), some "veg"⟩ ∧ (1/2 : ℚ) < store_minimum := by
  refine ⟨rfl, by norm_num [store_minimum]⟩

/-- C4 amended: the threshold is enforced by the caller, not the merge:
if every existing entry has confidence ≥ 0.70 and the incoming batch is
first passed through `_filter_by_confidence` at `store_minimum = 0.70`,
then every entry of the merged result has confidence ≥ 0.70. -/
theorem merge_threshold_with_prefilter (cur inc : SignalMap)
    (hcur : ∀ p ∈ cur, store_minimum ≤ p.2.confidence.getD 0) :
    ∀ p ∈ merge_signals cur (filter_by_confidence store_minimum inc),
      store_minimum ≤ p.2.confidence.getD 0 := by
  intro p hp
  rcases mem_merge_signals _ _ p hp with h | h
  · exact hcur p h
  · have hmem := List.mem_filter.mp h
    exact of_decide_eq_true hmem.2

/-- C4 amended witness: with a conforming existing map and a mixed batch,
the surviving incoming entry meets the threshold in the merged result. -/
theorem merge_threshold_with_prefilter_witness :
    store_minimum ≤
      (("goal", (⟨some (3/4), some "marriage"⟩ : SignalData)) :
        String × SignalData).2.confidence.getD 0 := by
  refine merge_threshold_with_prefilter [("diet", ⟨some (4/5), some "veg"⟩)]
    [("goal", ⟨some (3/4), some "marriage"⟩), ("city", ⟨some (1/2), some "blr"⟩)]
    (fun p hp => ?_) ("goal", ⟨some (3/4), some "marriage"⟩) ?_
  · rcases List.mem_singleton.mp hp with rfl
    norm_num [store_minimum]
  · have hfil : filter_by_confidence store_minimum
        [("goal", ⟨some (3/4), some "marriage"⟩), ("city", ⟨some (1/2), some "blr"⟩)] =
        [("goal", ⟨some (3/4), some "marriage"⟩)] := by
      simp only [filter_by_confidence, List.filter]
      norm_num [store_minimum]
    rw [hfil]
    simp [merge_signals, merge_step, lookup_field_cons, lookup_field_nil, set_field,
      List.foldl]

/-! ## C5: malformed batch entries (missing confidence or value)

The claim that a malformed entry is skipped is false: the merge reads
`signal_data.get('confidence', 0.0)` and otherwise stores the dict as-is, so
a malformed entry on a new field is inserted (with its missing data), and on
an existing field it merely loses the confidence comparison. -/

/-- C5 counterexample: an entry with neither confidence nor value, arriving
for a new field, appears verbatim in the merged result instead of being
skipped. -/
theorem malformed_signal_not_skipped :
    merge_signals [] [("diet", ⟨none, none⟩)] = [("diet", ⟨none, none⟩)] ∧
    lookup_field (merge_signals [] [("diet", ⟨none, none⟩)]) "diet" ≠ none := by
  exact ⟨rfl, by
    simp [merge_signals, merge_step, set_field, List.foldl, lookup_field_cons,
      lookup_field_nil]⟩

/-- C5 amended: an entry with missing confidence is treated as confidence
0.0: it never replaces an existing entry whose stored confidence is ≥ 0,
but on a new field the malformed entry is inserted as-is; the rest of the
batch is still merged (the merge is total and does not fail). -/
theorem malformed_signal_merge (cur inc : SignalMap)
    (hinc : (inc.map Prod.fst).Nodup) (f : String) (d : SignalData)
    (hd : d.confidence = none) (hf : lookup_field inc f = some d) :
    (∀ e, lookup_field cur f = some e → 0 ≤ e.confidence.getD 0 →
      lookup_field (merge_signals cur inc) f = some e) ∧
    (lookup_field cur f = none →
      lookup_field (merge_signals cur inc) f = some d) := by
  constructor
  · intro e he h0
    rw [merge_signals_lookup cur inc hinc f, hf, he]
    have hlt : ¬(e.confidence.getD 0 < d.confidence.getD 0) := by
      rw [hd]
      simpa using not_lt.mpr h0
    simp [hlt]
  · intro hc
    rw [merge_signals_lookup cur inc hinc f, hf, hc]

/-- C5 witness: a malformed entry loses against a stored entry on an
existing field, and is inserted verbatim on a new field, within one batch. -/
theorem malformed_signal_merge_witness :
    lookup_field (merge_signals [("diet", ⟨some (4/5), some "veg"⟩)]
        [("diet", ⟨none, none⟩), ("city", ⟨none, some "blr"⟩)]) "diet" =
      some ⟨some (4/5), some "veg"⟩ ∧
    lookup_field (merge_signals [("diet", ⟨some (4/5), some "veg"⟩)]
        [("diet", ⟨none, none⟩), ("city", ⟨none, some "blr"⟩)]) "city" =
      some ⟨none, some "blr"⟩ := by
  constructor
  · exact (malformed_signal_merge [("diet", ⟨some (4/5), some "veg"⟩)]
      [("diet", ⟨none, none⟩), ("city", ⟨none, some "blr"⟩)] (by decide) "diet"
      ⟨none, none⟩ rfl rfl).1 ⟨some (4/5), some "veg"⟩ rfl (by norm_num)
  · exact (malformed_signal_merge [("diet", ⟨some (4/5), some "veg"⟩)]
      [("diet", ⟨none, none⟩), ("city", ⟨none, some "blr"⟩)] (by decide) "city"
      ⟨none, some "blr"⟩ rfl rfl).2 rfl

/-! ## C8: find_matches

Python's stable `list.sort(key=..., reverse=True)` is modelled by
`List.insertionSort` under the total preorder `score_ge`; the lemmas below
establish the stability property (equal-score candidates keep their input
order) that characterizes it. -/

theorem filter_orderedInsert (p : Profile × ℚ × Breakdown → Bool)
    (hp : ∀ x y, p x = true → ¬score_ge x y → p y = false)
    (a : Profile × ℚ × Breakdown) (l : List (Profile × ℚ × Breakdown)) :
    (l.orderedInsert score_ge a).filter p = ((a :: l).filter p) := by
  induction l with
  | nil => rfl
  | cons b bs ih =>
    unfold List.orderedInsert
    by_cases h : score_ge a b
    · rw [if_pos h]
    · rw [if_neg h]
      by_cases hpa : p a = true
      · have hpb : p b = false := hp a b hpa h
        simp only [List.filter_cons, hpb, ih, hpa, if_true, Bool.false_eq_true, if_false]
      · have hpa' : p a = false := Bool.eq_false_iff.mpr hpa
        simp only [List.filter_cons, ih, hpa', Bool.false_eq_true, if_false]

theorem filter_insertionSort (p : Profile × ℚ × Breakdown → Bool)
    (hp : ∀ x y, p x = true → ¬score_ge x y → p y = false)
    (l : List (Profile × ℚ × Breakdown)) :
    (List.insertionSort score_ge l).filter p = l.filter p := by
  induction l with
  | nil => rfl
  | cons a l ih =>
    simp only [List.insertionSort]
    rw [filter_orderedInsert p hp a _]
    simp only [List.filter_cons, ih]

theorem find_matches_filterMap (u : Profile) (ms : ℚ) (cands : List Profile) :
    (cands.filterMap fun candidate =>
      if candidate.telegram_id = u.telegram_id then none
      else if ms ≤ (calculate_match_score u candidate).1 then
        some (candidate, (calculate_match_score u candidate).1,
          (calculate_match_score u candidate).2)
      else none) =
      ((cands.filter fun c =>
          ¬(c.telegram_id = u.telegram_id) ∧ ms ≤ (calculate_match_score u c).1).map
        fun c => (c, (calculate_match_score u c).1, (calculate_match_score u c).2)) := by
  induction cands with
  | nil => rfl
  | cons c l ih =>
    simp only [List.filterMap_cons, List.filter_cons]
    by_cases h1 : c.telegram_id = u.telegram_id
    · simp [h1, ih]
    · by_cases h2 : ms ≤ (calculate_match_score u c).1
      · simp [h1, h2, ih]
      · simp [h1, h2, ih]

/-- `find_matches` unfolded: the eligible candidates are exactly those that
pass the identity and minimum-score tests, in input order, and the result is
the truncated stable descending sort of their scored triples. -/
theorem find_matches_eligible (u : Profile) (cands : List Profile) (ms : ℚ) (lim : Nat) :
    find_matches u cands ms lim =
      (List.insertionSort score_ge
        ((cands.filter fun c =>
            ¬(c.telegram_id = u.telegram_id) ∧ ms ≤ (calculate_match_score u c).1).map
          fun c => (c, (calculate_match_score u c).1, (calculate_match_score u c).2))).take
        lim := by
  simp only [find_matches]
  rw [find_matches_filterMap]

/-- C8: `find_matches` (i) only returns candidates from the input whose
`telegram_id` differs from the user's, scored by `calculate_match_score`
against the user with total ≥ `min_score`; (ii) returns at most `limit`
triples; (iii) sorted descending by total; (iv) stably — for every total,
the tied triples appear in candidate input order; and (v) exactly the
eligible candidates whenever they fit within `limit` (up to the sort
permutation). -/
theorem find_matches_spec (u : Profile) (cands : List Profile) (ms : ℚ) (lim : Nat) :
    (∀ x ∈ find_matches u cands ms lim,
      ¬(x.1.telegram_id = u.telegram_id) ∧ ms ≤ x.2.1 ∧
      x.2.1 = (calculate_match_score u x.1).1 ∧
      x.2.2 = (calculate_match_score u x.1).2 ∧ x.1 ∈ cands) ∧
    (find_matches u cands ms lim).length ≤ lim ∧
    List.Sorted score_ge (find_matches u cands ms lim) ∧
    (∀ t : ℚ, List.Sublist
      ((find_matches u cands ms lim).filter (fun x => x.2.1 = t))
      ((cands.map fun c =>
        (c, (calculate_match_score u c).1, (calculate_match_score u c).2)).filter
        (fun x => x.2.1 = t))) ∧
    ((cands.filter fun c =>
        ¬(c.telegram_id = u.telegram_id) ∧ ms ≤ (calculate_match_score u c).1).length ≤ lim →
      (find_matches u cands ms lim).Perm
        ((cands.filter fun c =>
          ¬(c.telegram_id = u.telegram_id) ∧ ms ≤ (calculate_match_score u c).1).map
          fun c => (c, (calculate_match_score u c).1, (calculate_match_score u c).2))) := by
  rw [find_matches_eligible u cands ms lim]
  refine ⟨?_, ?_, ?_, ?_, ?_⟩
  · intro x hx
    have hx1 : x ∈ List.insertionSort score_ge _ := List.mem_of_mem_take hx
    have hx2 := (List.mem_insertionSort score_ge).mp hx1
    rcases List.mem_map.mp hx2 with ⟨c, hc, rfl⟩
    have hc' := List.mem_filter.mp hc
    have hcond := of_decide_eq_true hc'.2
    exact ⟨hcond.1, hcond.2, rfl, rfl, hc'.1⟩
  · exact List.length_take_le lim _
  · exact (List.sorted_insertionSort score_ge _).sublist (List.take_sublist lim _)
  · intro t
    have h1 : List.Sublist
        (((List.insertionSort score_ge
          ((cands.filter fun c =>
            ¬(c.telegram_id = u.telegram_id) ∧ ms ≤ (calculate_match_score u c).1).map
            fun c => (c, (calculate_match_score u c).1,
              (calculate_match_score u c).2))).take lim).filter
          (fun x => decide (x.2.1 = t)))
        ((List.insertionSort score_ge
          ((cands.filter fun c =>
            ¬(c.telegram_id = u.telegram_id) ∧ ms ≤ (calculate_match_score u c).1).map
            fun c => (c, (calculate_match_score u c).1,
              (calculate_match_score u c).2))).filter (fun x => decide (x.2.1 = t))) :=
      (List.take_sublist lim _).filter _
    have hp : ∀ x y : Profile × ℚ × Breakdown,
        decide (x.2.1 = t) = true → ¬score_ge x y → decide (y.2.1 = t) = false := by
      intro x y hx hxy
      have hx' := of_decide_eq_true hx
      have : x.2.1 < y.2.1 := lt_of_not_le hxy
      simp only [decide_eq_false_iff_not]
      intro hy
      rw [hx', hy] at this
      exact lt_irrefl t this
    rw [filter_insertionSort _ hp] at h1
    refine h1.trans ?_
    exact (((List.filter_sublist cands).map _).filter _)
  · intro hlen
    have hlen' : (List.insertionSort score_ge
        ((cands.filter fun c =>
          ¬(c.telegram_id = u.telegram_id) ∧ ms ≤ (calculate_match_score u c).1).map
          fun c => (c, (calculate_match_score u c).1,
            (calculate_match_score u c).2))).length ≤ lim := by
      rw [List.length_insertionSort, List.length_map]
      exact hlen
    rw [List.take_of_length_le hlen']
    exact List.perm_insertionSort score_ge _

/-- C8 witness: a concrete instantiation of the specification. -/
theorem find_matches_spec_witness :
    (find_matches { telegram_id := some 1 } [{ telegram_id := some 1 }] 0 5).length ≤ 5 :=
  (find_matches_spec { telegram_id := some 1 } [{ telegram_id := some 1 }] 0 5).2.1

/-! ## C1: cultural compensation beats distance -/

/-- The location flexibility adjustment (0, 10 or 15 points) is never
negative. -/
theorem flex_bonus_nonneg (x y : ℚ) :
    0 ≤ (if x < 3/5 ∧ y < 3/5 then (15 : ℚ)
         else if x < 3/5 ∨ y < 3/5 then 10 else 0) := by
  split_ifs <;> norm_num

/-- `_score_location` on two different, non-same-metro cities of the same
country, with one side declaring `cultural_weight = HIGH` and matching
non-empty caste and language: flexibility adjustment + 5 (same country)
+ 20 (cultural compensation). -/
theorem score_location_far_same_country (dA dB : Demographics) (pA pB : Preferences)
    (hcity : str_lower (dA.location.getD "") ≠ str_lower (dB.location.getD ""))
    (hmetro : same_metro_area (str_lower (dA.location.getD ""))
      (str_lower (dB.location.getD "")) = false)
    (hcountry : same_country (str_lower (dA.location.getD ""))
      (str_lower (dB.location.getD "")) = true)
    (hhigh : pA.cultural_weight.getD "medium" = "HIGH")
    (hca : dA.caste.getD "" ≠ "") (hcab : dA.caste.getD "" = dB.caste.getD "")
    (hla : dA.language.getD "" ≠ "") (hlab : dA.language.getD "" = dB.language.getD "") :
    (score_location dA dB pA pB).1 =
      (if pA.location_proximity_weight.getD (1/2) < 3/5 ∧
          pB.location_proximity_weight.getD (1/2) < 3/5 then (15 : ℚ)
       else if pA.location_proximity_weight.getD (1/2) < 3/5 ∨
          pB.location_proximity_weight.getD (1/2) < 3/5 then 10 else 0) + 25 := by
  have hm : ¬(same_metro_area (str_lower (dA.location.getD ""))
      (str_lower (dB.location.getD "")) = true) := by
    rw [hmetro]; exact Bool.false_ne_true
  have hc1 : dA.caste.getD "" ≠ "" ∧ dA.caste.getD "" = dB.caste.getD "" := ⟨hca, hcab⟩
  have hc2 : dA.language.getD "" ≠ "" ∧ dA.language.getD "" = dB.language.getD "" :=
    ⟨hla, hlab⟩
  have hor : pA.cultural_weight.getD "medium" = "HIGH" ∨
      pB.cultural_weight.getD "medium" = "HIGH" := Or.inl hhigh
  have hpos : (0 : ℚ) < 10 + 10 := by norm_num
  simp only [score_location, if_neg hcity, if_neg hm, if_pos hcountry, if_pos hor,
    if_pos hc1, if_pos hc2, if_pos hpos]
  split_ifs <;> norm_num

/-- `_score_location` on two different cities in different countries with no
shared cultural markers: flexibility adjustment − 10 (cross-country penalty),
even when one side declares `cultural_weight = HIGH` (the compensation bonus
is 0 and is not added). -/
theorem score_location_cross_country (dA dC : Demographics) (pA pC : Preferences)
    (hcity : str_lower (dA.location.getD "") ≠ str_lower (dC.location.getD ""))
    (hmetro : same_metro_area (str_lower (dA.location.getD ""))
      (str_lower (dC.location.getD "")) = false)
    (hcountry : same_country (str_lower (dA.location.getD ""))
      (str_lower (dC.location.getD "")) = false)
    (hcac : dC.caste.getD "" ≠ dA.caste.getD "")
    (hlac : dC.language.getD "" ≠ dA.language.getD "") :
    (score_location dA dC pA pC).1 =
      (if pA.location_proximity_weight.getD (1/2) < 3/5 ∧
          pC.location_proximity_weight.getD (1/2) < 3/5 then (15 : ℚ)
       else if pA.location_proximity_weight.getD (1/2) < 3/5 ∨
          pC.location_proximity_weight.getD (1/2) < 3/5 then 10 else 0) - 10 := by
  have hm : ¬(same_metro_area (str_lower (dA.location.getD ""))
      (str_lower (dC.location.getD "")) = true) := by
    rw [hmetro]; exact Bool.false_ne_true
  have hcn : ¬(same_country (str_lower (dA.location.getD ""))
      (str_lower (dC.location.getD "")) = true) := by
    rw [hcountry]; exact Bool.false_ne_true
  have hb1 : ¬(dA.caste.getD "" ≠ "" ∧ dA.caste.getD "" = dC.caste.getD "") :=
    fun h => hcac h.2.symm
  have hb2 : ¬(dA.language.getD "" ≠ "" ∧ dA.language.getD "" = dC.language.getD "") :=
    fun h => hlac h.2.symm
  have hnpos : ¬((0 : ℚ) < 0 + 0) := by norm_num
  by_cases hhigh : pA.cultural_weight.getD "medium" = "HIGH" ∨
      pC.cultural_weight.getD "medium" = "HIGH"
  · simp only [score_location, if_neg hcity, if_neg hm, if_neg hcn, if_pos hhigh,
      if_neg hb1, if_neg hb2, if_neg hnpos]
    split_ifs <;> norm_num
  · simp only [score_location, if_neg hcity, if_neg hm, if_neg hcn, if_neg hhigh]
    split_ifs <;> norm_num

/-- `_score_location` when the two lowercased locations are distinct but in
the same metro cluster: flat 20. -/
theorem score_location_metro (dA dC : Demographics) (pA pC : Preferences)
    (hcity : str_lower (dA.location.getD "") ≠ str_lower (dC.location.getD ""))
    (hmetro : same_metro_area (str_lower (dA.location.getD ""))
      (str_lower (dC.location.getD "")) = true) :
    (score_location dA dC pA pC).1 = 20 := by
  simp only [score_location, if_neg hcity, if_pos hmetro]

/-- `_score_cultural` with matching non-empty caste and language:
`15 * max(caste weights) + 10 * max(language weights)`. -/
theorem score_cultural_full_match (dA dB : Demographics) (pA pB : Preferences)
    (hca : dA.caste.getD "" ≠ "") (hcab : dA.caste.getD "" = dB.caste.getD "")
    (hla : dA.language.getD "" ≠ "") (hlab : dA.language.getD "" = dB.language.getD "") :
    (score_cultural dA dB pA pB).1 =
      15 * max (pA.same_caste_weight.getD (1/2)) (pB.same_caste_weight.getD (1/2)) +
      10 * max (pA.language_weight.getD (1/2)) (pB.language_weight.getD (1/2)) := by
  have hc1 : dA.caste.getD "" ≠ "" ∧ dB.caste.getD "" ≠ "" := ⟨hca, hcab ▸ hca⟩
  have hc2 : dA.language.getD "" ≠ "" ∧ dB.language.getD "" ≠ "" ∧
      dA.language.getD "" = dB.language.getD "" := ⟨hla, hlab ▸ hla, hlab⟩
  simp only [score_cultural, if_pos hc1, if_pos hcab, if_pos hc2]

/-- `_score_cultural` with no shared caste and no shared language and
nonnegative caste weights is never positive (it is 0 or the different-caste
penalty). -/
theorem score_cultural_no_match (dA dC : Demographics) (pA pC : Preferences)
    (hcac : dC.caste.getD "" ≠ dA.caste.getD "")
    (hlac : dC.language.getD "" ≠ dA.language.getD "")
    (hwa : 0 ≤ pA.same_caste_weight.getD (1/2))
    (_hwc : 0 ≤ pC.same_caste_weight.getD (1/2)) :
    (score_cultural dA dC pA pC).1 ≤ 0 := by
  have hlang : ¬(dA.language.getD "" ≠ "" ∧ dC.language.getD "" ≠ "" ∧
      dA.language.getD "" = dC.language.getD "") := fun h => hlac h.2.2.symm
  by_cases hcc : dC.caste.getD "" = ""
  · have hb : ¬(dA.caste.getD "" ≠ "" ∧ dC.caste.getD "" ≠ "") := fun h => h.2 hcc
    simp only [score_cultural, if_neg hlang, if_neg hb]
    norm_num
  · by_cases hempty : dA.caste.getD "" = ""
    · have hb : ¬(dA.caste.getD "" ≠ "" ∧ dC.caste.getD "" ≠ "") := fun h => h.1 hempty
      simp only [score_cultural, if_neg hlang, if_neg hb]
      norm_num
    · have hb : dA.caste.getD "" ≠ "" ∧ dC.caste.getD "" ≠ "" := ⟨hempty, hcc⟩
      have hne : ¬(dA.caste.getD "" = dC.caste.getD "") := fun h => hcac h.symm
      have hmax : 0 ≤ max (pA.same_caste_weight.getD (1/2))
          (pC.same_caste_weight.getD (1/2)) := le_trans hwa (le_max_left _ _)
      by_cases hpen : 7/10 < pA.same_caste_weight.getD (1/2) ∨
          7/10 < pC.same_caste_weight.getD (1/2)
      · simp only [score_cultural, if_neg hlang, if_pos hb, if_neg hne, if_pos hpen]
        simp only [add_zero]
        nlinarith
      · simp only [score_cultural, if_neg hlang, if_pos hb, if_neg hne, if_neg hpen]
        norm_num

/-- C1: cultural compensation beats distance.  For profiles A, B in
different (non-identical, non-same-metro) cities of the same country, with A
declaring `cultural_weight = 'HIGH'` and A, B sharing a non-empty caste and
a non-empty language; and profile C in a different country (hence a
different city) sharing neither caste nor language with A and declaring no
cultural_weight; with B's and C's remaining attributes (age, vegetarian
flag, occupation, preference weights and flags, signals) held equal and the
caste/language weights nonnegative (the data model constrains weights to
[0,1]): `calculate_match_score(A,B)` is strictly greater than
`calculate_match_score(A,C)`. -/
theorem cultural_compensation_beats_distance (A B C : Profile)
    (hab_city : str_lower (A.demographics.location.getD "") ≠
      str_lower (B.demographics.location.getD ""))
    (hab_metro : same_metro_area (str_lower (A.demographics.location.getD ""))
      (str_lower (B.demographics.location.getD "")) = false)
    (hab_country : same_country (str_lower (A.demographics.location.getD ""))
      (str_lower (B.demographics.location.getD "")) = true)
    (hhigh : A.preferences.cultural_weight = some "HIGH")
    (hca : A.demographics.caste.getD "" ≠ "")
    (hcab : A.demographics.caste.getD "" = B.demographics.caste.getD "")
    (hla : A.demographics.language.getD "" ≠ "")
    (hlab : A.demographics.language.getD "" = B.demographics.language.getD "")
    (hac_city : str_lower (A.demographics.location.getD "") ≠
      str_lower (C.demographics.location.getD ""))
    (hac_country : same_country (str_lower (A.demographics.location.getD ""))
      (str_lower (C.demographics.location.getD "")) = false)
    (hcac : C.demographics.caste.getD "" ≠ A.demographics.caste.getD "")
    (hlac : C.demographics.language.getD "" ≠ A.demographics.language.getD "")
    (_hnocw : C.preferences.cultural_weight = none)
    (hage : B.demographics.age = C.demographics.age)
    (hveg : B.demographics.vegetarian = C.demographics.vegetarian)
    (hocc : B.demographics.occupation = C.demographics.occupation)
    (hflex : B.preferences.location_proximity_weight =
      C.preferences.location_proximity_weight)
    (hcw : B.preferences.same_caste_weight = C.preferences.same_caste_weight)
    (_hlw : B.preferences.language_weight = C.preferences.language_weight)
    (hvw : B.preferences.vegetarian_weight = C.preferences.vegetarian_weight)
    (haf : B.preferences.age_range_flexible = C.preferences.age_range_flexible)
    (hsig : B.signals = C.signals)
    (hw1 : 0 ≤ A.preferences.same_caste_weight.getD (1/2))
    (hw2 : 0 ≤ B.preferences.same_caste_weight.getD (1/2))
    (hw3 : 0 ≤ A.preferences.language_weight.getD (1/2))
    (_hw4 : 0 ≤ B.preferences.language_weight.getD (1/2)) :
    (calculate_match_score A C).1 < (calculate_match_score A B).1 := by
  have hhigh' : A.preferences.cultural_weight.getD "medium" = "HIGH" := by
    rw [hhigh]; rfl
  have hage_eq : score_age A.demographics C.demographics A.preferences C.preferences =
      score_age A.demographics B.demographics A.preferences B.preferences := by
    unfold score_age
    rw [← hage, ← haf]
  have hlif_eq : score_lifestyle A.demographics C.demographics A.preferences C.preferences =
      score_lifestyle A.demographics B.demographics A.preferences B.preferences := by
    unfold score_lifestyle
    rw [← hveg, ← hvw, ← hocc]
  have hsig_eq : score_signals A.signals C.signals A.preferences C.preferences =
      score_signals A.signals B.signals A.preferences B.preferences := by
    unfold score_signals
    rw [← hsig]
  have hculAB := score_cultural_full_match A.demographics B.demographics
    A.preferences B.preferences hca hcab hla hlab
  have hculAC : (score_cultural A.demographics C.demographics
      A.preferences C.preferences).1 ≤ 0 :=
    score_cultural_no_match A.demographics C.demographics A.preferences C.preferences
      hcac hlac hw1 (by rw [← hcw]; exact hw2)
  have hculABnn : 0 ≤ (score_cultural A.demographics B.demographics
      A.preferences B.preferences).1 := by
    rw [hculAB]
    have m1 : 0 ≤ max (A.preferences.same_caste_weight.getD (1/2))
        (B.preferences.same_caste_weight.getD (1/2)) := le_trans hw1 (le_max_left _ _)
    have m2 : 0 ≤ max (A.preferences.language_weight.getD (1/2))
        (B.preferences.language_weight.getD (1/2)) := le_trans hw3 (le_max_left _ _)
    nlinarith
  have hAB := score_location_far_same_country A.demographics B.demographics
    A.preferences B.preferences hab_city hab_metro hab_country hhigh' hca hcab hla hlab
  have hFB : 0 ≤ (if A.preferences.location_proximity_weight.getD (1/2) < 3/5 ∧
        B.preferences.location_proximity_weight.getD (1/2) < 3/5 then (15 : ℚ)
      else if A.preferences.location_proximity_weight.getD (1/2) < 3/5 ∨
        B.preferences.location_proximity_weight.getD (1/2) < 3/5 then 10 else 0) :=
    flex_bonus_nonneg _ _
  have key : (score_location A.demographics C.demographics A.preferences C.preferences).1 +
      (score_cultural A.demographics C.demographics A.preferences C.preferences).1 <
      (score_location A.demographics B.demographics A.preferences B.preferences).1 +
      (score_cultural A.demographics B.demographics A.preferences B.preferences).1 := by
    by_cases hmetro_ac : same_metro_area (str_lower (A.demographics.location.getD ""))
        (str_lower (C.demographics.location.getD "")) = true
    · have hAC := score_location_metro A.demographics C.demographics
        A.preferences C.preferences hac_city hmetro_ac
      rw [hAB, hAC]
      linarith
    · have hmetro_ac' : same_metro_area (str_lower (A.demographics.location.getD ""))
          (str_lower (C.demographics.location.getD "")) = false :=
        Bool.eq_false_iff.mpr hmetro_ac
      have hAC := score_location_cross_country A.demographics C.demographics
        A.preferences C.preferences hac_city hmetro_ac' hac_country hcac hlac
      rw [hAB, hAC, ← hflex]
      linarith
  simp only [calculate_match_score]
  rw [hage_eq, hlif_eq, hsig_eq]
  linarith

/-- The Canberra NRI profile from the source's own test scenario. -/
def canberra_profile : Profile where
  telegram_id := some 1
  demographics := {
    age := some 28
    location := some "Canberra, Australia"
    occupation := some "Software Engineer"
    caste := some "Patel"
    language := some "Gujarati"
    vegetarian := some true }
  preferences := {
    location_proximity_weight := some (1/2)
    cultural_weight := some "HIGH"
    same_caste_weight := some (7/10)
    language_weight := some (4/5)
    vegetarian_weight := some (9/10) }
  signals := ["mentioned diaspora loneliness", "values cultural grounding"]

/-- A Sydney profile sharing caste and language with the Canberra profile. -/
def sydney_profile : Profile where
  telegram_id := some 2
  demographics := {
    age := some 27
    location := some "Sydney, Australia"
    occupation := some "Consultant"
    caste := some "Patel"
    language := some "Gujarati"
    vegetarian := some true }
  preferences := {
    location_proximity_weight := some (3/5)
    cultural_weight := some "HIGH"
    same_caste_weight := some (4/5)
    language_weight := some (7/10)
    vegetarian_weight := some (9/10) }
  signals := ["family-oriented", "values cultural connection"]

/-- A Delhi profile sharing no caste or language with the Canberra profile,
declaring no cultural weight, and otherwise identical to the Sydney
profile. -/
def delhi_profile : Profile where
  telegram_id := some 3
  demographics := {
    age := some 27
    location := some "Delhi, India"
    occupation := some "Consultant"
    caste := some "Iyer"
    language := some "Tamil"
    vegetarian := some true }
  preferences := {
    location_proximity_weight := some (3/5)
    same_caste_weight := some (4/5)
    language_weight := some (7/10)
    vegetarian_weight := some (9/10) }
  signals := ["family-oriented", "values cultural connection"]

/-- C1 witness: the concrete Canberra scenario — the Sydney match scores
strictly higher than the Delhi one. -/
theorem cultural_compensation_beats_distance_witness :
    (calculate_match_score canberra_profile delhi_profile).1 <
      (calculate_match_score canberra_profile sydney_profile).1 :=
  cultural_compensation_beats_distance canberra_profile sydney_profile delhi_profile
    (by decide) (by decide) (by decide) rfl (by decide) rfl (by decide) rfl
    (by decide) (by decide) (by decide) (by decide) rfl
    rfl rfl rfl rfl rfl rfl rfl rfl rfl
    (by norm_num [canberra_profile]) (by norm_num [sydney_profile])
    (by norm_num [canberra_profile]) (by norm_num [sydney_profile])

end Jodi
